import Mathlib

/-!
Verification of the contributor-report trust evaluation engine.

This file shallow-embeds the data model and the pure evaluation pipeline of
the repository (GraphQL snapshot types, metric extractors, threshold checks,
the suspicious-pattern detector, the retry loop and the paginated fetch
accumulator) as executable Lean definitions, and proves properties of them.

Conventions of the embedding:
- timestamps are integers (milliseconds since the epoch, as produced by
  Date.getTime in the source);
- fractional quantities (rates, thresholds, raw metric values) are rationals;
- the wall clock (Date.now in the source) is passed as an explicit parameter;
- human-readable strings that the source attaches to results (details,
  descriptions, evidence records) carry no control flow and are omitted from
  the embedded records.
-/

namespace ContributorReport

/-- Cursor-based page information, from the GraphQL connection types. -/
structure PageInfo where
  hasNextPage : Bool
  endCursor : Option String
  deriving Repr, DecidableEq

/-- State of a pull request, from the GraphQL schema. -/
inductive PRState where
  | OPEN
  | CLOSED
  | MERGED
  deriving Repr, DecidableEq

/-- Repository descriptor attached to a pull request node. -/
structure Repository where
  ownerLogin : String
  name : String
  stargazerCount : Int
  deriving Repr, DecidableEq

/-- One pull request node of the GraphQL response (types/github.ts).
The mergedBy field holds the merger login when known. -/
structure PullRequestNode where
  state : PRState
  merged : Bool
  mergedAt : Option Int
  createdAt : Int
  closedAt : Option Int
  additions : Int
  deletions : Int
  mergedBy : Option String
  repository : Option Repository
  deriving Repr, DecidableEq

/-- Reaction content values of the GraphQL schema. -/
inductive ReactionContent where
  | THUMBS_UP
  | THUMBS_DOWN
  | LAUGH
  | CONFUSED
  | HEART
  | HOORAY
  | ROCKET
  | EYES
  deriving Repr, DecidableEq

/-- One issue comment node. The createdAt timestamp is fetched by
CONTRIBUTOR_DATA_QUERY alongside the reactions. -/
structure IssueCommentNode where
  createdAt : Int
  reactions : List ReactionContent
  deriving Repr, DecidableEq

/-- One node of the issue search results; fields are optional because the
search can return non-Issue nodes and empty fragment spreads. -/
structure IssueSearchNode where
  typename : Option String
  createdAt : Option Int
  commentsTotalCount : Option Nat
  reactions : Option (List ReactionContent)
  deriving Repr, DecidableEq

/-- Paginated pull request collection of a user. -/
structure PullRequestConnection where
  totalCount : Nat
  nodes : List PullRequestNode
  pageInfo : PageInfo
  deriving Repr, DecidableEq

/-- Paginated issue comment collection of a user. -/
structure IssueCommentConnection where
  totalCount : Nat
  nodes : List IssueCommentNode
  pageInfo : PageInfo
  deriving Repr, DecidableEq

/-- User record of the GraphQL response. The contribution calendar is kept
as its total plus the review contribution count, which is all the engine
reads from it. -/
structure User where
  login : String
  createdAt : Int
  bio : Option String
  company : Option String
  location : Option String
  websiteUrl : Option String
  followersTotalCount : Nat
  repositoriesTotalCount : Nat
  pullRequests : PullRequestConnection
  contributionsTotalContributions : Nat
  pullRequestReviewContributionsCount : Nat
  issueComments : IssueCommentConnection
  deriving Repr, DecidableEq

/-- Issue search portion of the GraphQL response. -/
structure IssueSearch where
  issueCount : Nat
  nodes : List IssueSearchNode
  deriving Repr, DecidableEq

/-- Full contributor snapshot handed to the extractors. -/
structure GraphQLContributorData where
  user : User
  issueSearch : IssueSearch
  deriving Repr, DecidableEq

/-- Context of the pull request under evaluation. -/
structure PRContext where
  owner : String
  repo : String
  prNumber : Nat
  prAuthor : String
  deriving Repr, DecidableEq

/-- Numeric thresholds per metric (types/config.ts). -/
structure MetricThresholds where
  prMergeRate : ℚ
  repoQuality : ℚ
  positiveReactions : ℚ
  negativeReactions : ℚ
  accountAge : ℚ
  activityConsistency : ℚ
  issueEngagement : ℚ
  codeReviews : ℚ
  mergerDiversity : ℚ
  repoHistoryMergeRate : ℚ
  repoHistoryMinPRs : ℚ
  profileCompleteness : ℚ
  deriving Repr, DecidableEq

/-- Configuration consumed by the evaluation engine. Token and
output-collaborator fields (onFail, labelName, dryRun, newAccountAction,
trusted lists) do not enter the engine and are omitted. -/
structure ContributorQualityConfig where
  thresholds : MetricThresholds
  requiredMetrics : List String
  minimumStars : Int
  analysisWindowMonths : Nat
  newAccountThresholdDays : ℚ
  enableSpamDetection : Bool
  deriving Repr, DecidableEq

/-- Result of checking a single metric against its threshold
(types/metrics.ts); the human-readable details string is omitted. -/
structure MetricCheckResult where
  name : String
  rawValue : ℚ
  threshold : ℚ
  passed : Bool
  dataPoints : Nat
  deriving Repr, DecidableEq

/-- PR history analysis data (types/metrics.ts). -/
structure PRHistoryData where
  totalPRs : Nat
  mergedPRs : Nat
  closedWithoutMerge : Nat
  openPRs : Nat
  mergeRate : ℚ
  averagePRSize : ℚ
  veryShortPRs : Nat
  mergedPRDates : List Int
  deriving Repr, DecidableEq

/-- One repository the contributor has merged PRs in (types/metrics.ts). -/
structure RepoContribution where
  owner : String
  repo : String
  stars : Int
  mergedPRCount : Nat
  deriving Repr, DecidableEq

/-- Repository quality metric data (types/metrics.ts). -/
structure RepoQualityData where
  contributedRepos : List RepoContribution
  qualityRepoCount : Nat
  averageRepoStars : ℚ
  highestStarRepo : Int
  deriving Repr, DecidableEq

/-- Reaction analysis data (types/metrics.ts). -/
structure ReactionData where
  totalComments : Nat
  positiveReactions : Nat
  negativeReactions : Nat
  neutralReactions : Nat
  positiveRatio : ℚ
  deriving Repr, DecidableEq

/-- Account age and activity data (types/metrics.ts). -/
structure AccountData where
  createdAt : Int
  ageInDays : ℚ
  monthsWithActivity : Nat
  totalMonthsInWindow : Nat
  consistencyScore : ℚ
  deriving Repr, DecidableEq

/-- Issue engagement data (types/metrics.ts). -/
structure IssueEngagementData where
  issuesCreated : Nat
  issuesWithComments : Nat
  issuesWithReactions : Nat
  averageCommentsPerIssue : ℚ
  deriving Repr, DecidableEq

/-- Code review contribution data (types/metrics.ts). -/
structure CodeReviewData where
  reviewsGiven : Nat
  reviewCommentsGiven : Nat
  reviewedRepos : List String
  deriving Repr, DecidableEq

/-- Merger diversity data (types/metrics.ts). -/
structure MergerDiversityData where
  totalMergedPRs : Nat
  uniqueMergers : Nat
  selfMergeCount : Nat
  othersMergeCount : Nat
  selfMergesOnOwnRepos : Nat
  selfMergesOnExternalRepos : Nat
  externalReposWithMergePrivilege : List String
  onlySelfMergesOnOwnRepos : Bool
  selfMergeRate : ℚ
  mergerLogins : List String
  deriving Repr, DecidableEq

/-- Repository-specific history data (types/metrics.ts). -/
structure RepoHistoryData where
  repoName : String
  totalPRsInRepo : Nat
  mergedPRsInRepo : Nat
  closedWithoutMergeInRepo : Nat
  repoMergeRate : ℚ
  isFirstTimeContributor : Bool
  deriving Repr, DecidableEq

/-- Profile completeness data (types/metrics.ts). -/
structure ProfileData where
  followersCount : Nat
  publicReposCount : Nat
  hasBio : Bool
  hasCompany : Bool
  hasLocation : Bool
  hasWebsite : Bool
  completenessScore : Nat
  deriving Repr, DecidableEq

/-- Severity of a suspicious pattern. -/
inductive PatternSeverity where
  | CRITICAL
  | WARNING
  deriving Repr, DecidableEq

/-- Kind of a suspicious pattern. -/
inductive SuspiciousPatternType where
  | SPAM_PATTERN
  | HIGH_PR_RATE
  | SELF_MERGE_ABUSE
  | REPO_SPAM
  deriving Repr, DecidableEq

/-- One detected suspicious pattern; the description and evidence strings
of the source carry no control flow and are omitted. -/
structure SuspiciousPattern where
  type : SuspiciousPatternType
  severity : PatternSeverity
  deriving Repr, DecidableEq

/-- Suspicious activity pattern data (types/metrics.ts). -/
structure SuspiciousPatternData where
  detectedPatterns : List SuspiciousPattern
  prRate : ℚ
  uniqueRepoCount : Nat
  selfMergeRate : ℚ
  accountAgeInDays : ℚ
  deriving Repr, DecidableEq

-- Default thresholds for spam pattern detection (suspicious-patterns.ts).
namespace SPAM_DETECTION_THRESHOLDS

def NEW_ACCOUNT_DAYS : ℚ := 30

def NEW_ACCOUNT_HIGH_PR_COUNT : Nat := 25

def NEW_ACCOUNT_HIGH_REPO_COUNT : Nat := 10

def HIGH_PR_RATE : ℚ := 2

def SELF_MERGE_ABUSE_RATE : ℚ := 1 / 2

def LOW_QUALITY_REPO_STARS : Int := 10

def REPO_SPAM_COUNT : Nat := 10

def REPO_SPAM_AVG_STARS : ℚ := 10

end SPAM_DETECTION_THRESHOLDS

/-- Input data for suspicious pattern analysis (suspicious-patterns.ts). -/
structure SuspiciousPatternInput where
  prHistory : PRHistoryData
  repoQuality : RepoQualityData
  account : AccountData
  mergerDiversity : MergerDiversityData
  deriving Repr, DecidableEq

/-- Extract suspicious pattern data from aggregated metrics
(suspicious-patterns.ts). Each of the four rules appends at most one
pattern, in a fixed order. -/
def extractSuspiciousPatterns (metrics : SuspiciousPatternInput) (_username : String) :
    SuspiciousPatternData :=
  let accountAgeInDays := metrics.account.ageInDays
  let totalPRs := metrics.prHistory.totalPRs
  let uniqueRepoCount := metrics.repoQuality.contributedRepos.length
  let selfMergeRate := metrics.mergerDiversity.selfMergeRate
  let prRate : ℚ := if 0 < accountAgeInDays then (totalPRs : ℚ) / accountAgeInDays else (totalPRs : ℚ)
  let spamPattern : List SuspiciousPattern :=
    if accountAgeInDays < SPAM_DETECTION_THRESHOLDS.NEW_ACCOUNT_DAYS
        ∧ totalPRs > SPAM_DETECTION_THRESHOLDS.NEW_ACCOUNT_HIGH_PR_COUNT
        ∧ uniqueRepoCount > SPAM_DETECTION_THRESHOLDS.NEW_ACCOUNT_HIGH_REPO_COUNT then
      [⟨.SPAM_PATTERN, .CRITICAL⟩]
    else []
  let highPrRate : List SuspiciousPattern :=
    if prRate > SPAM_DETECTION_THRESHOLDS.HIGH_PR_RATE then [⟨.HIGH_PR_RATE, .WARNING⟩] else []
  let lowQualityRepos := metrics.repoQuality.contributedRepos.filter
    (fun repo => repo.stars < SPAM_DETECTION_THRESHOLDS.LOW_QUALITY_REPO_STARS)
  let lowQualityPRs := (lowQualityRepos.map (fun repo => repo.mergedPRCount)).sum
  let totalMergedPRs := metrics.mergerDiversity.totalMergedPRs
  let selfMergeAbuse : List SuspiciousPattern :=
    if 0 < totalMergedPRs
        ∧ selfMergeRate > SPAM_DETECTION_THRESHOLDS.SELF_MERGE_ABUSE_RATE
        ∧ (lowQualityPRs : ℚ) / (totalMergedPRs : ℚ) > SPAM_DETECTION_THRESHOLDS.SELF_MERGE_ABUSE_RATE then
      [⟨.SELF_MERGE_ABUSE, .CRITICAL⟩]
    else []
  let repoSpam : List SuspiciousPattern :=
    if uniqueRepoCount > SPAM_DETECTION_THRESHOLDS.REPO_SPAM_COUNT
        ∧ metrics.repoQuality.averageRepoStars < SPAM_DETECTION_THRESHOLDS.REPO_SPAM_AVG_STARS then
      [⟨.REPO_SPAM, .WARNING⟩]
    else []
  { detectedPatterns := spamPattern ++ highPrRate ++ selfMergeAbuse ++ repoSpam
    prRate := prRate
    uniqueRepoCount := uniqueRepoCount
    selfMergeRate := selfMergeRate
    accountAgeInDays := accountAgeInDays }

/-- Check if there are any critical spam patterns (suspicious-patterns.ts). -/
def hasCriticalSpamPatterns (data : SuspiciousPatternData) : Bool :=
  data.detectedPatterns.any (fun pattern => pattern.severity == .CRITICAL)

/-- Check suspicious patterns: hard fail exactly on critical patterns
(suspicious-patterns.ts). -/
def checkSuspiciousPatterns (data : SuspiciousPatternData) : MetricCheckResult :=
  let criticalPatterns := data.detectedPatterns.filter (fun p => p.severity == .CRITICAL)
  let warningPatterns := data.detectedPatterns.filter (fun p => p.severity == .WARNING)
  if data.detectedPatterns.length = 0 then
    { name := "suspiciousPatterns", rawValue := 0, threshold := 0, passed := true, dataPoints := 1 }
  else if 0 < criticalPatterns.length then
    { name := "suspiciousPatterns", rawValue := criticalPatterns.length, threshold := 0,
      passed := false, dataPoints := 1 }
  else
    { name := "suspiciousPatterns", rawValue := warningPatterns.length, threshold := 0,
      passed := true, dataPoints := 1 }

/-- Positive reaction types (types/metrics.ts). -/
def POSITIVE_REACTIONS : List ReactionContent := [.THUMBS_UP, .HEART, .ROCKET, .HOORAY]

/-- Negative reaction types (types/metrics.ts). -/
def NEGATIVE_REACTIONS : List ReactionContent := [.THUMBS_DOWN, .CONFUSED]

/-- Issue search nodes that the reaction extractor keeps: Issue-typed nodes
whose reactions field is present (reactions.ts). -/
def filteredReactionIssues (data : GraphQLContributorData) : List IssueSearchNode :=
  data.issueSearch.nodes.filter
    (fun issue => issue.typename == some "Issue" && issue.reactions.isSome)

/-- All reaction contents the extractor iterates over: reactions of every
comment followed by reactions of every kept issue (reactions.ts). -/
def snapshotReactionContents (data : GraphQLContributorData) : List ReactionContent :=
  (data.user.issueComments.nodes.map (fun c => c.reactions)).flatten
    ++ ((filteredReactionIssues data).map (fun i => i.reactions.getD [])).flatten

/-- Reactions classified positive by the if-chain of reactions.ts. -/
def countPositive (rs : List ReactionContent) : Nat :=
  (rs.filter (fun r => POSITIVE_REACTIONS.contains r)).length

/-- Reactions classified negative: not positive and in the negative list. -/
def countNegative (rs : List ReactionContent) : Nat :=
  (rs.filter (fun r => !POSITIVE_REACTIONS.contains r && NEGATIVE_REACTIONS.contains r)).length

/-- Reactions classified neutral: in neither list. -/
def countNeutral (rs : List ReactionContent) : Nat :=
  (rs.filter (fun r => !POSITIVE_REACTIONS.contains r && !NEGATIVE_REACTIONS.contains r)).length

/-- Extract reaction data from comments and from issues created by the user
(reactions.ts). The ratio defaults to one half when no reactions exist. -/
def extractReactionData (data : GraphQLContributorData) : ReactionData :=
  let comments := data.user.issueComments.nodes
  let issues := filteredReactionIssues data
  let rs := snapshotReactionContents data
  let positiveCount := countPositive rs
  let negativeCount := countNegative rs
  let neutralCount := countNeutral rs
  let totalReactions := positiveCount + negativeCount + neutralCount
  let positiveRatio : ℚ :=
    if 0 < totalReactions then (positiveCount : ℚ) / (totalReactions : ℚ) else 1 / 2
  { totalComments := comments.length + issues.length
    positiveReactions := positiveCount
    negativeReactions := negativeCount
    neutralReactions := neutralCount
    positiveRatio := positiveRatio }

/-- Check positive reactions against a minimum threshold (reactions.ts). -/
def checkPositiveReactions (data : ReactionData) (threshold : ℚ) : MetricCheckResult :=
  { name := "positiveReactions", rawValue := data.positiveReactions, threshold := threshold,
    passed := decide (threshold ≤ (data.positiveReactions : ℚ)),
    dataPoints := data.totalComments }

/-- Check negative reactions against a maximum threshold (reactions.ts). -/
def checkNegativeReactions (data : ReactionData) (threshold : ℚ) : MetricCheckResult :=
  { name := "negativeReactions", rawValue := data.negativeReactions, threshold := threshold,
    passed := decide ((data.negativeReactions : ℚ) ≤ threshold),
    dataPoints := data.totalComments }

/-- Lowercase a string character by character; models toLowerCase of the
source. Spelled as a map over the character list so that it evaluates
inside the kernel. -/
def lowerString (s : String) : String := ⟨s.data.map Char.toLower⟩

/-- Append an element to a list unless already present; models insertion
into a JS Set, which keeps first-insertion order. -/
def insertUnique (l : List String) (x : String) : List String :=
  if l.contains x then l else l ++ [x]

/-- Accumulator of the per-PR loop of extractMergerDiversityData
(merger-diversity.ts). -/
structure MergerAcc where
  mergerLogins : List String
  selfMergeCount : Nat
  othersMergeCount : Nat
  selfMergesOnOwnRepos : Nat
  selfMergesOnExternalRepos : Nat
  externalReposWithMergePrivilege : List String
  deriving Repr, DecidableEq

/-- One iteration of the merged-PR loop of merger-diversity.ts: record the
merger login and classify the merge. -/
def mergerStep (userLower : String) (acc : MergerAcc) (pr : PullRequestNode) : MergerAcc :=
  match pr.mergedBy with
  | none => acc
  | some mergedByLogin =>
    let mergerLogin := lowerString mergedByLogin
    let repoOwner := pr.repository.map (fun r => lowerString r.ownerLogin)
    let acc := { acc with mergerLogins := insertUnique acc.mergerLogins mergerLogin }
    if mergerLogin == userLower then
      let acc := { acc with selfMergeCount := acc.selfMergeCount + 1 }
      if repoOwner == some userLower then
        { acc with selfMergesOnOwnRepos := acc.selfMergesOnOwnRepos + 1 }
      else
        match pr.repository with
        | some repo =>
          { acc with
            selfMergesOnExternalRepos := acc.selfMergesOnExternalRepos + 1,
            externalReposWithMergePrivilege :=
              insertUnique acc.externalReposWithMergePrivilege
                (repo.ownerLogin ++ "/" ++ repo.name) }
        | none => acc
    else
      { acc with othersMergeCount := acc.othersMergeCount + 1 }

/-- Merged PRs within the analysis window: merged, with a merge timestamp
at or after the window start (merger-diversity.ts). -/
def mergedPRsInWindow (data : GraphQLContributorData) (sinceDate : Int) :
    List PullRequestNode :=
  data.user.pullRequests.nodes.filter (fun pr =>
    pr.merged && match pr.mergedAt with
      | some t => decide (sinceDate ≤ t)
      | none => false)

/-- Extract merger diversity data (merger-diversity.ts): who merged the PRs
of the contributor, with case-insensitive self-merge detection. -/
def extractMergerDiversityData (data : GraphQLContributorData) (username : String)
    (sinceDate : Int) : MergerDiversityData :=
  let userLower := lowerString username
  let mergedPRs := mergedPRsInWindow data sinceDate
  let acc := mergedPRs.foldl (mergerStep userLower) ⟨[], 0, 0, 0, 0, []⟩
  let totalMergedPRs := mergedPRs.length
  let selfMergeRate : ℚ :=
    if 0 < totalMergedPRs then (acc.selfMergeCount : ℚ) / (totalMergedPRs : ℚ) else 0
  let onlySelfMergesOnOwnRepos :=
    decide (0 < totalMergedPRs ∧ acc.selfMergesOnOwnRepos = totalMergedPRs
      ∧ acc.othersMergeCount = 0)
  { totalMergedPRs := totalMergedPRs
    uniqueMergers := acc.mergerLogins.length
    selfMergeCount := acc.selfMergeCount
    othersMergeCount := acc.othersMergeCount
    selfMergesOnOwnRepos := acc.selfMergesOnOwnRepos
    selfMergesOnExternalRepos := acc.selfMergesOnExternalRepos
    externalReposWithMergePrivilege := acc.externalReposWithMergePrivilege
    onlySelfMergesOnOwnRepos := onlySelfMergesOnOwnRepos
    selfMergeRate := selfMergeRate
    mergerLogins := acc.mergerLogins }

/-- Check merger diversity against a minimum unique-merger threshold
(merger-diversity.ts): no merged PRs is neutral, the own-repo-self-merge
red flag fails any positive threshold, otherwise compare uniqueMergers. -/
def checkMergerDiversity (data : MergerDiversityData) (threshold : ℚ) : MetricCheckResult :=
  if data.totalMergedPRs = 0 then
    { name := "mergerDiversity", rawValue := 0, threshold := threshold,
      passed := decide (threshold = 0), dataPoints := 0 }
  else if data.onlySelfMergesOnOwnRepos && decide (0 < threshold) then
    { name := "mergerDiversity", rawValue := 0, threshold := threshold,
      passed := false, dataPoints := data.totalMergedPRs }
  else
    { name := "mergerDiversity", rawValue := data.uniqueMergers, threshold := threshold,
      passed := decide (threshold ≤ (data.uniqueMergers : ℚ)),
      dataPoints := data.totalMergedPRs }

/-- Extract repository-specific history data (repo-history.ts), scoped to
the target repository of the PR under evaluation. -/
def extractRepoHistoryData (data : GraphQLContributorData) (prContext : PRContext)
    (sinceDate : Int) : RepoHistoryData :=
  let targetRepo := lowerString (prContext.owner ++ "/" ++ prContext.repo)
  let repoPRs := data.user.pullRequests.nodes.filter (fun pr =>
    match pr.repository with
    | none => false
    | some r =>
      (lowerString (r.ownerLogin ++ "/" ++ r.name) == targetRepo) && decide (sinceDate ≤ pr.createdAt))
  let mergedPRs := repoPRs.filter (fun pr => pr.merged)
  let closedWithoutMerge := repoPRs.filter (fun pr => pr.state == .CLOSED && !pr.merged)
  let resolvedPRs := mergedPRs.length + closedWithoutMerge.length
  let repoMergeRate : ℚ :=
    if 0 < resolvedPRs then (mergedPRs.length : ℚ) / (resolvedPRs : ℚ) else 0
  { repoName := prContext.owner ++ "/" ++ prContext.repo
    totalPRsInRepo := repoPRs.length
    mergedPRsInRepo := mergedPRs.length
    closedWithoutMergeInRepo := closedWithoutMerge.length
    repoMergeRate := repoMergeRate
    isFirstTimeContributor := mergedPRs.length == 0 }

/-- Check the repository merge rate against its threshold (repo-history.ts):
no PRs in the repo, or only open PRs, are neutral cases. -/
def checkRepoHistoryMergeRate (data : RepoHistoryData) (threshold : ℚ) : MetricCheckResult :=
  if data.totalPRsInRepo = 0 then
    { name := "repoHistoryMergeRate", rawValue := 0, threshold := threshold,
      passed := decide (threshold = 0), dataPoints := 0 }
  else if data.mergedPRsInRepo + data.closedWithoutMergeInRepo = 0 then
    { name := "repoHistoryMergeRate", rawValue := 0, threshold := threshold,
      passed := decide (threshold = 0), dataPoints := data.totalPRsInRepo }
  else
    { name := "repoHistoryMergeRate", rawValue := data.repoMergeRate, threshold := threshold,
      passed := decide (threshold ≤ data.repoMergeRate), dataPoints := data.totalPRsInRepo }

/-- Check the minimum number of PRs in the repository (repo-history.ts). -/
def checkRepoHistoryMinPRs (data : RepoHistoryData) (threshold : ℚ) : MetricCheckResult :=
  { name := "repoHistoryMinPRs", rawValue := data.totalPRsInRepo, threshold := threshold,
    passed := decide (threshold ≤ (data.totalPRsInRepo : ℚ)),
    dataPoints := data.totalPRsInRepo }

/-- A thrown JavaScript Error as rate-limit.ts inspects it: its message and
its optional numeric status field. Non-Error throwables classify as neither
rate-limit nor transient and so are modelled by the same record. -/
structure JsError where
  message : String
  status : Option Int
  deriving Repr, DecidableEq

/-- Whether the pattern occurs as a contiguous sublist. -/
def listContainsSub (pat : List Char) : List Char → Bool
  | [] => pat.isEmpty
  | c :: rest => pat.isPrefixOf (c :: rest) || listContainsSub pat rest

/-- Substring test; models String.prototype.includes of the source. -/
def strContainsSub (s pat : String) : Bool := listContainsSub pat.data s.data

/-- Word character in the sense of the \w regex class. -/
def isWordChar (c : Char) : Bool := c.isAlphanum || c == '_'

/-- Whether the pattern occurs delimited by word boundaries; prev is the
character preceding the current position, none at the start. -/
def listContainsWord (w : List Char) : Option Char → List Char → Bool
  | _, [] => false
  | prev, c :: rest =>
    (w.isPrefixOf (c :: rest)
      && (match prev with | none => true | some p => !isWordChar p)
      && (match (c :: rest).drop w.length with | [] => true | d :: _ => !isWordChar d))
    || listContainsWord w (some c) rest

/-- Word-bounded occurrence test; models a \b...\b regex test of the
source. -/
def strContainsWord (s pat : String) : Bool := listContainsWord pat.data none s.data

/-- Classify an error as a rate limit error from its lowercased message
(rate-limit.ts). -/
def isRateLimitError (e : JsError) : Bool :=
  let message := lowerString e.message
  strContainsSub message "rate limit" || strContainsSub message "api rate limit"
    || strContainsSub message "secondary rate limit"

/-- Classify an error as transient: network failures, 5xx markers in the
lowercased message, or a 5xx status field (rate-limit.ts). -/
def isTransientError (e : JsError) : Bool :=
  let message := lowerString e.message
  (strContainsSub message "econnreset" || strContainsSub message "etimedout"
      || strContainsSub message "enotfound" || strContainsSub message "socket hang up"
      || strContainsSub message "network" || strContainsSub message "fetch failed")
  || (strContainsWord message "500" || strContainsWord message "502"
      || strContainsWord message "503" || strContainsWord message "504"
      || strContainsSub message "internal server error" || strContainsSub message "bad gateway"
      || strContainsSub message "service unavailable" || strContainsSub message "gateway timeout")
  || (match e.status with
      | some status => decide (500 ≤ status) && decide (status < 600)
      | none => false)

/-- Backoff of handleRateLimitError: min of 1000 times 2 to the attempt and
60000 milliseconds (rate-limit.ts). -/
def rateLimitWaitTime (attempt : Nat) : Nat := min (1000 * 2 ^ attempt) 60000

/-- Backoff of handleTransientError: min of 500 times 2 to the attempt and
30000 milliseconds (rate-limit.ts). -/
def transientWaitTime (attempt : Nat) : Nat := min (500 * 2 ^ attempt) 30000

/-- Observable trace of one executeWithRetry run: how many times fn was
invoked, the backoff sleeps performed in order, and the final outcome.
The error is optional because the fall-through rethrow of the source
throws an undefined lastError when the loop never ran. -/
structure RetryResult (T : Type) where
  calls : Nat
  sleeps : List Nat
  outcome : Except (Option JsError) T
  deriving Repr

/-- The attempt loop of executeWithRetry (rate-limit.ts), with the loop
counter split into the current attempt index and the remaining iterations
so that the recursion is structural: on failure at the last permitted
attempt the error is rethrown; otherwise rate-limit and transient errors
sleep and retry, and any other error is rethrown at once. -/
def executeWithRetryLoop {T : Type} (fn : Nat → Except JsError T) (maxRetries : Nat) :
    Nat → Option JsError → Nat → List Nat → Nat → RetryResult T
  | _, lastError, calls, sleeps, 0 => ⟨calls, sleeps, .error lastError⟩
  | attempt, _, calls, sleeps, remaining + 1 =>
    match fn attempt with
    | .ok v => ⟨calls + 1, sleeps, .ok v⟩
    | .error e =>
      if attempt = maxRetries - 1 then ⟨calls + 1, sleeps, .error (some e)⟩
      else if isRateLimitError e then
        executeWithRetryLoop fn maxRetries (attempt + 1) (some e) (calls + 1)
          (sleeps ++ [rateLimitWaitTime attempt]) remaining
      else if isTransientError e then
        executeWithRetryLoop fn maxRetries (attempt + 1) (some e) (calls + 1)
          (sleeps ++ [transientWaitTime attempt]) remaining
      else ⟨calls + 1, sleeps, .error (some e)⟩

/-- Execute a fallible operation with bounded retries (rate-limit.ts);
the source default for maxRetries is 3. The argument fn receives the
attempt index, modelling the successive invocations of the thunk. -/
def executeWithRetry {T : Type} (fn : Nat → Except JsError T) (maxRetries : Nat) :
    RetryResult T :=
  executeWithRetryLoop fn maxRetries 0 none 0 [] maxRetries

/-- Determine whether the contributor passes, from the per-metric results
and the configured required-metric names (config/defaults.ts). -/
def determinePassStatus (metrics : List MetricCheckResult) (requiredMetrics : List String) : Bool :=
  if requiredMetrics.isEmpty then
    metrics.all (fun m => m.passed)
  else
    requiredMetrics.all (fun requiredName =>
      match metrics.find? (fun m => m.name == requiredName) with
      | some metric => metric.passed
      | none => true)

/-- The upstream GraphQL endpoint as the fetcher sees it: a pure function
from the PR cursor and the comment cursor of a physical call to the
response of that call (queries.ts issues the same query with varying
cursors). -/
def Server : Type := Option String → Option String → GraphQLContributorData

/-- Hard page cap of fetchContributorData (queries.ts). -/
def maxPages : Nat := 5

/-- The PR pagination loop of fetchContributorData: while the previous page
info announces a next page and pages remain under the cap, request the next
page at the cursor and append its PR nodes. -/
def fetchPRPages (server : Server) : Nat → PageInfo → List PullRequestNode →
    List PullRequestNode
  | 0, _, acc => acc
  | pagesLeft + 1, pageInfo, acc =>
    if pageInfo.hasNextPage then
      let nextPage := server pageInfo.endCursor none
      fetchPRPages server pagesLeft nextPage.user.pullRequests.pageInfo
        (acc ++ nextPage.user.pullRequests.nodes)
    else acc

/-- The comment pagination loop of fetchContributorData, analogous to the
PR loop with the comment cursor. -/
def fetchCommentPages (server : Server) : Nat → PageInfo → List IssueCommentNode →
    List IssueCommentNode
  | 0, _, acc => acc
  | pagesLeft + 1, pageInfo, acc =>
    if pageInfo.hasNextPage then
      let nextPage := server none pageInfo.endCursor
      fetchCommentPages server pagesLeft nextPage.user.issueComments.pageInfo
        (acc ++ nextPage.user.issueComments.nodes)
    else acc

/-- Fetch and aggregate contributor data (queries.ts): issue the initial
call, follow PR and comment pagination up to the page cap, filter the
accumulated PRs to the analysis window, and assemble the snapshot. The
accumulated comments are returned as gathered. -/
def fetchContributorData (server : Server) (sinceDate : Int) : GraphQLContributorData :=
  let result := server none none
  let allPRs := fetchPRPages server (maxPages - 1) result.user.pullRequests.pageInfo
    result.user.pullRequests.nodes
  let filteredPRs := allPRs.filter (fun pr => decide (sinceDate ≤ pr.createdAt))
  let allComments := fetchCommentPages server (maxPages - 1) result.user.issueComments.pageInfo
    result.user.issueComments.nodes
  { user := { result.user with
      pullRequests := { result.user.pullRequests with
        nodes := filteredPRs, totalCount := filteredPRs.length },
      issueComments := { result.user.issueComments with
        nodes := allComments, totalCount := allComments.length } },
    issueSearch := result.issueSearch }

/-- Modelled from the spec: the PR history extractor of pr-history.ts is
not part of the sources at hand; following section 4.3 of the spec, PRs
are scoped to the window by creation date, the merge rate is merged over
resolved with zero resolved giving zero, and short PRs are those changing
fewer than 10 lines. -/
def extractPRHistoryData (data : GraphQLContributorData) (sinceDate : Int) : PRHistoryData :=
  let windowPRs := data.user.pullRequests.nodes.filter
    (fun pr => decide (sinceDate ≤ pr.createdAt))
  let merged := windowPRs.filter (fun pr => pr.merged)
  let closed := windowPRs.filter (fun pr => pr.state == .CLOSED && !pr.merged)
  let openPRs := windowPRs.filter (fun pr => pr.state == .OPEN)
  let resolved := merged.length + closed.length
  let mergeRate : ℚ := if 0 < resolved then (merged.length : ℚ) / (resolved : ℚ) else 0
  let totalSize : Int := (windowPRs.map (fun pr => pr.additions + pr.deletions)).sum
  let averagePRSize : ℚ :=
    if 0 < windowPRs.length then (totalSize : ℚ) / (windowPRs.length : ℚ) else 0
  { totalPRs := windowPRs.length
    mergedPRs := merged.length
    closedWithoutMerge := closed.length
    openPRs := openPRs.length
    mergeRate := mergeRate
    averagePRSize := averagePRSize
    veryShortPRs := (windowPRs.filter (fun pr => decide (pr.additions + pr.deletions < 10))).length
    mergedPRDates := merged.map (fun pr => pr.mergedAt.getD pr.createdAt) }

/-- Modelled from the spec: the PR merge rate check of pr-history.ts is not
in the sources at hand; per section 4.5 it compares the rate against the
threshold with at-least semantics. -/
def checkPRMergeRate (data : PRHistoryData) (threshold : ℚ) : MetricCheckResult :=
  { name := "prMergeRate", rawValue := data.mergeRate, threshold := threshold,
    passed := decide (threshold ≤ data.mergeRate), dataPoints := data.totalPRs }

/-- Insert one merged PR into the per-repository contribution groups,
incrementing the count of an existing entry or appending a new one in
encounter order. -/
def addRepoContribution : List RepoContribution → String → String → Int → List RepoContribution
  | [], owner, name, stars => [⟨owner, name, stars, 1⟩]
  | rc :: rest, owner, name, stars =>
    if rc.owner == owner && rc.repo == name then
      { rc with mergedPRCount := rc.mergedPRCount + 1 } :: rest
    else rc :: addRepoContribution rest owner name stars

/-- Modelled from the spec: the repo quality extractor of repo-quality.ts
is not in the sources at hand; per section 4.3 merged PRs in the window are
grouped by repository, a repo qualifies with at least minimumStars stars,
and the average and maximum star counts are derived. -/
def extractRepoQualityData (data : GraphQLContributorData) (minimumStars : Int)
    (sinceDate : Int) : RepoQualityData :=
  let mergedPRs := data.user.pullRequests.nodes.filter
    (fun pr => pr.merged && decide (sinceDate ≤ pr.createdAt))
  let contributedRepos := mergedPRs.foldl
    (fun acc pr =>
      match pr.repository with
      | some r => addRepoContribution acc r.ownerLogin r.name r.stargazerCount
      | none => acc) []
  let starsSum : Int := (contributedRepos.map (fun rc => rc.stars)).sum
  { contributedRepos := contributedRepos
    qualityRepoCount := (contributedRepos.filter (fun rc => decide (minimumStars ≤ rc.stars))).length
    averageRepoStars :=
      if 0 < contributedRepos.length then (starsSum : ℚ) / (contributedRepos.length : ℚ) else 0
    highestStarRepo := (contributedRepos.map (fun rc => rc.stars)).foldl max 0 }

/-- Modelled from the spec: the repo quality check of repo-quality.ts is
not in the sources at hand; it compares the qualifying repo count against
the threshold with at-least semantics. -/
def checkRepoQuality (data : RepoQualityData) (threshold : ℚ) (_minimumStars : Int) :
    MetricCheckResult :=
  { name := "repoQuality", rawValue := data.qualityRepoCount, threshold := threshold,
    passed := decide (threshold ≤ (data.qualityRepoCount : ℚ)),
    dataPoints := data.contributedRepos.length }

/-- Milliseconds per day. -/
def msPerDay : Int := 86400000

/-- Milliseconds per thirty-day month bucket. -/
def msPerMonth : Int := 30 * 86400000

/-- Modelled from the spec: the account extractor of account-age.ts is not
in the sources at hand; per section 4.3 the age in days is now minus
createdAt, and the consistency score is the number of distinct months
holding at least one PR creation over the window length in months. -/
def extractAccountData (data : GraphQLContributorData) (analysisWindowMonths : Nat)
    (now : Int) : AccountData :=
  let createdAt := data.user.createdAt
  let monthBuckets := (data.user.pullRequests.nodes.map (fun pr => pr.createdAt / msPerMonth)).dedup
  { createdAt := createdAt
    ageInDays := ((now - createdAt : Int) : ℚ) / (msPerDay : ℚ)
    monthsWithActivity := monthBuckets.length
    totalMonthsInWindow := analysisWindowMonths
    consistencyScore :=
      if 0 < analysisWindowMonths then (monthBuckets.length : ℚ) / (analysisWindowMonths : ℚ)
      else 0 }

/-- Modelled from the spec: the account age check of account-age.ts is not
in the sources at hand; it compares the age in days against the threshold
with at-least semantics. -/
def checkAccountAge (data : AccountData) (threshold : ℚ) : MetricCheckResult :=
  { name := "accountAge", rawValue := data.ageInDays, threshold := threshold,
    passed := decide (threshold ≤ data.ageInDays), dataPoints := 1 }

/-- Modelled from the spec: the consistency check of account-age.ts is not
in the sources at hand; it compares the consistency score against the
threshold with at-least semantics. -/
def checkActivityConsistency (data : AccountData) (threshold : ℚ) : MetricCheckResult :=
  { name := "activityConsistency", rawValue := data.consistencyScore, threshold := threshold,
    passed := decide (threshold ≤ data.consistencyScore), dataPoints := data.monthsWithActivity }

/-- Modelled from the spec: isNewAccount of account-age.ts is not in the
sources at hand; an account is new when strictly younger than the
configured day threshold. -/
def isNewAccount (data : AccountData) (thresholdDays : ℚ) : Bool :=
  decide (data.ageInDays < thresholdDays)

/-- Modelled from the spec: the code review extractor of code-review.ts is
not in the sources at hand; reviews given are the review contributions of
the contribution collection. -/
def extractCodeReviewData (data : GraphQLContributorData) : CodeReviewData :=
  { reviewsGiven := data.user.pullRequestReviewContributionsCount
    reviewCommentsGiven := 0
    reviewedRepos := [] }

/-- Modelled from the spec: the code review check of code-review.ts is not
in the sources at hand; it compares reviews given against the threshold
with at-least semantics. -/
def checkCodeReviews (data : CodeReviewData) (threshold : ℚ) : MetricCheckResult :=
  { name := "codeReviews", rawValue := data.reviewsGiven, threshold := threshold,
    passed := decide (threshold ≤ (data.reviewsGiven : ℚ)), dataPoints := data.reviewsGiven }

/-- Extract issue engagement data from the issue search results
(issue-engagement.ts), keeping only Issue-typed nodes with comment and
reaction fields present. -/
def extractIssueEngagementData (data : GraphQLContributorData) : IssueEngagementData :=
  let issues := data.issueSearch.nodes.filter (fun issue =>
    issue.typename == some "Issue" && issue.commentsTotalCount.isSome && issue.reactions.isSome)
  let totalComments := (issues.map (fun i => i.commentsTotalCount.getD 0)).sum
  { issuesCreated := issues.length
    issuesWithComments := (issues.filter (fun i => 0 < i.commentsTotalCount.getD 0)).length
    issuesWithReactions := (issues.filter (fun i => 0 < (i.reactions.getD []).length)).length
    averageCommentsPerIssue :=
      if 0 < issues.length then (totalComments : ℚ) / (issues.length : ℚ) else 0 }

/-- Check issue engagement against a minimum issues-created threshold
(issue-engagement.ts). -/
def checkIssueEngagement (data : IssueEngagementData) (threshold : ℚ) : MetricCheckResult :=
  { name := "issueEngagement", rawValue := data.issuesCreated, threshold := threshold,
    passed := decide (threshold ≤ (data.issuesCreated : ℚ)), dataPoints := data.issuesCreated }

/-- Whether an optional profile string is present with non-whitespace
content; models the truthiness-and-trim test of profile-completeness.ts. -/
def profileFieldPresent : Option String → Bool
  | none => false
  | some s => s.data.any (fun c => !c.isWhitespace)

/-- Extract profile completeness data and its additive 0 to 100 score
(profile-completeness.ts): followers up to 40, public repos up to 20, bio
20, company 20; location and website tracked but unscored. -/
def extractProfileData (data : GraphQLContributorData) : ProfileData :=
  let followersCount := data.user.followersTotalCount
  let publicReposCount := data.user.repositoriesTotalCount
  let hasBio := profileFieldPresent data.user.bio
  let hasCompany := profileFieldPresent data.user.company
  let followersScore :=
    if 0 < followersCount then
      20 + (if 10 ≤ followersCount then 10 + (if 50 ≤ followersCount then 10 else 0) else 0)
    else 0
  let reposScore :=
    if 0 < publicReposCount then 15 + (if 5 ≤ publicReposCount then 5 else 0) else 0
  { followersCount := followersCount
    publicReposCount := publicReposCount
    hasBio := hasBio
    hasCompany := hasCompany
    hasLocation := profileFieldPresent data.user.location
    hasWebsite := profileFieldPresent data.user.websiteUrl
    completenessScore := followersScore + reposScore + (if hasBio then 20 else 0)
      + (if hasCompany then 20 else 0) }

/-- Check profile completeness against a minimum score
(profile-completeness.ts). -/
def checkProfileCompleteness (data : ProfileData) (threshold : ℚ) : MetricCheckResult :=
  { name := "profileCompleteness", rawValue := data.completenessScore, threshold := threshold,
    passed := decide (threshold ≤ (data.completenessScore : ℚ)), dataPoints := 1 }

/-- Aggregated metrics from all extractors (types/metrics.ts); the
suspicious pattern data is present only when spam detection ran. -/
structure AllMetricsData where
  prHistory : PRHistoryData
  repoQuality : RepoQualityData
  reactions : ReactionData
  account : AccountData
  issueEngagement : IssueEngagementData
  codeReviews : CodeReviewData
  mergerDiversity : MergerDiversityData
  repoHistory : RepoHistoryData
  profile : ProfileData
  suspiciousPatterns : Option SuspiciousPatternData
  deriving Repr, DecidableEq

/-- Extract all metric data from the snapshot (config/defaults.ts); the
suspicious pattern detector runs only when spam detection is enabled. The
wall clock consumed by the account extractor is the explicit now
parameter. -/
def extractAllMetrics (data : GraphQLContributorData) (config : ContributorQualityConfig)
    (sinceDate : Int) (prContext : PRContext) (now : Int) : AllMetricsData :=
  let username := data.user.login
  let prHistory := extractPRHistoryData data sinceDate
  let repoQuality := extractRepoQualityData data config.minimumStars sinceDate
  let account := extractAccountData data config.analysisWindowMonths now
  let mergerDiversity := extractMergerDiversityData data username sinceDate
  { prHistory := prHistory
    repoQuality := repoQuality
    reactions := extractReactionData data
    account := account
    issueEngagement := extractIssueEngagementData data
    codeReviews := extractCodeReviewData data
    mergerDiversity := mergerDiversity
    repoHistory := extractRepoHistoryData data prContext sinceDate
    profile := extractProfileData data
    suspiciousPatterns :=
      if config.enableSpamDetection then
        some (extractSuspiciousPatterns ⟨prHistory, repoQuality, account, mergerDiversity⟩
          username)
      else none }

/-- Check all metrics against their thresholds (config/defaults.ts): the
twelve base checks in fixed order, then the suspicious patterns check when
present. -/
def checkAllMetrics (metricsData : AllMetricsData) (config : ContributorQualityConfig) :
    List MetricCheckResult :=
  let thresholds := config.thresholds
  let baseChecks :=
    [checkPRMergeRate metricsData.prHistory thresholds.prMergeRate,
     checkRepoQuality metricsData.repoQuality thresholds.repoQuality config.minimumStars,
     checkPositiveReactions metricsData.reactions thresholds.positiveReactions,
     checkNegativeReactions metricsData.reactions thresholds.negativeReactions,
     checkAccountAge metricsData.account thresholds.accountAge,
     checkActivityConsistency metricsData.account thresholds.activityConsistency,
     checkIssueEngagement metricsData.issueEngagement thresholds.issueEngagement,
     checkCodeReviews metricsData.codeReviews thresholds.codeReviews,
     checkMergerDiversity metricsData.mergerDiversity thresholds.mergerDiversity,
     checkRepoHistoryMergeRate metricsData.repoHistory thresholds.repoHistoryMergeRate,
     checkRepoHistoryMinPRs metricsData.repoHistory thresholds.repoHistoryMinPRs,
     checkProfileCompleteness metricsData.profile thresholds.profileCompleteness]
  match metricsData.suspiciousPatterns with
  | some sp => baseChecks ++ [checkSuspiciousPatterns sp]
  | none => baseChecks

/-- Critical-pattern test lifted to the optional pattern data of
AllMetricsData. -/
def optionHasCriticalSpamPatterns : Option SuspiciousPatternData → Bool
  | some sp => hasCriticalSpamPatterns sp
  | none => false

/-- The recommendation of the switch in generateRecommendations
(config/defaults.ts) for one failed metric. -/
def recommendationFor (metricsData : AllMetricsData) (m : MetricCheckResult) : List String :=
  match m.name with
  | "prMergeRate" =>
    ["Improve PR quality to increase merge rate. Focus on smaller, well-documented changes."]
  | "repoQuality" =>
    ["Consider contributing to established open source projects with significant community adoption."]
  | "codeReviews" =>
    ["Participate in code reviews to demonstrate engagement with the community."]
  | "negativeReactions" =>
    ["Focus on constructive communication to improve community reception."]
  | "accountAge" =>
    ["Continue building your contribution history. New accounts naturally have limited data."]
  | "activityConsistency" =>
    if (90 : ℚ) ≤ metricsData.account.ageInDays then
      ["Maintain consistent activity over time to build a stronger contribution profile."]
    else []
  | "positiveReactions" =>
    ["Engage more with the community through helpful comments and discussions."]
  | "issueEngagement" =>
    ["Create issues to report bugs or suggest features, and engage with the community."]
  | "mergerDiversity" =>
    if metricsData.mergerDiversity.onlySelfMergesOnOwnRepos then
      ["Build trust by contributing to external projects where other maintainers can review and merge your work."]
    else
      ["Increase trust signals by contributing to more diverse projects and getting PRs merged by different maintainers."]
  | "repoHistoryMergeRate" =>
    if metricsData.repoHistory.isFirstTimeContributor then
      ["Welcome! This is your first contribution to this repository."]
    else
      ["Review previous rejected PRs in this repository to understand maintainer expectations."]
  | "repoHistoryMinPRs" =>
    ["Build trust by making consistent, quality contributions to this repository over time."]
  | "profileCompleteness" =>
    let missing := (if !metricsData.profile.hasBio then ["bio"] else [])
      ++ (if !metricsData.profile.hasCompany then ["company/affiliation"] else [])
      ++ (if metricsData.profile.followersCount = 0 then
            ["GitHub followers (engage with community)"] else [])
    if 0 < missing.length then
      ["Complete your GitHub profile by adding: " ++ String.intercalate ", " missing]
    else []
  | _ => []

/-- Generate recommendations for failed metrics (config/defaults.ts): a
critical spam pattern short-circuits into a single high-priority entry;
otherwise failed metrics contribute in list order, with one generic entry
when none applied. -/
def generateRecommendations (metricsData : AllMetricsData)
    (metrics : List MetricCheckResult) : List String :=
  let failedMetrics := metrics.filter (fun m => !m.passed)
  if optionHasCriticalSpamPatterns metricsData.suspiciousPatterns then
    ["CRITICAL: Suspicious activity patterns detected. This account exhibits characteristics commonly associated with spam or automated contributions."]
  else
    let recs := failedMetrics.foldl (fun acc m => acc ++ recommendationFor metricsData m) []
    if recs.isEmpty && !failedMetrics.isEmpty then
      ["Build your GitHub profile through meaningful contributions, code reviews, and community engagement."]
    else recs

/-- Minimum data points for sufficient data (types/scoring.ts). -/
def MIN_CONTRIBUTIONS_FOR_DATA : Nat := 5

/-- The complete analysis result (types/scoring.ts); dates are integer
timestamps. -/
structure AnalysisResult where
  passed : Bool
  passedCount : Nat
  totalMetrics : Nat
  metrics : List MetricCheckResult
  failedMetrics : List String
  username : String
  analyzedAt : Int
  dataWindowStart : Int
  dataWindowEnd : Int
  recommendations : List String
  isNewAccount : Bool
  hasLimitedData : Bool
  wasWhitelisted : Bool
  metricsData : AllMetricsData
  deriving Repr

/-- Main evaluation function (config/defaults.ts): extract all metrics,
check them, resolve the verdict through the required metrics, and assemble
the result. The wall clock of the source is the explicit now parameter. -/
def evaluateContributor (data : GraphQLContributorData) (config : ContributorQualityConfig)
    (sinceDate : Int) (prContext : PRContext) (now : Int) : AnalysisResult :=
  let username := data.user.login
  let metricsData := extractAllMetrics data config sinceDate prContext now
  let metrics := checkAllMetrics metricsData config
  let passed := determinePassStatus metrics config.requiredMetrics
  let passedCount := (metrics.filter (fun m => m.passed)).length
  let failedMetrics := (metrics.filter (fun m => !m.passed)).map (fun m => m.name)
  let accountIsNew := isNewAccount metricsData.account config.newAccountThresholdDays
  let totalDataPoints := (metrics.map (fun m => m.dataPoints)).sum
  { passed := passed
    passedCount := passedCount
    totalMetrics := metrics.length
    metrics := metrics
    failedMetrics := failedMetrics
    username := username
    analyzedAt := now
    dataWindowStart := sinceDate
    dataWindowEnd := now
    recommendations := generateRecommendations metricsData metrics
    isNewAccount := accountIsNew
    hasLimitedData := decide (totalDataPoints < MIN_CONTRIBUTIONS_FOR_DATA)
    wasWhitelisted := false
    metricsData := metricsData }

/-- True when neither the comments nor any issue search node carry any
reaction. -/
def snapshotHasNoReactions (data : GraphQLContributorData) : Bool :=
  data.user.issueComments.nodes.all (fun c => c.reactions.isEmpty)
    && data.issueSearch.nodes.all (fun i => (i.reactions.getD []).isEmpty)

/-- C5: with an empty required list, determinePassStatus is the conjunction
of every passed flag; with a nonempty required list it is the conjunction
over the named metrics only, where a required name matching no result is
treated as passing (fail-open). -/
theorem claim_C5_determinePassStatus (metrics : List MetricCheckResult) (req : List String) :
    (determinePassStatus metrics [] = true ↔ ∀ m ∈ metrics, m.passed = true)
    ∧ (req ≠ [] →
        (determinePassStatus metrics req = true ↔
          ∀ name ∈ req, ∀ m, metrics.find? (fun x => x.name == name) = some m → m.passed = true))
    ∧ (req ≠ [] → (∀ name ∈ req, metrics.find? (fun x => x.name == name) = none) →
        determinePassStatus metrics req = true) := by
  refine ⟨?_, ?_, ?_⟩
  · simp [determinePassStatus, List.all_eq_true]
  · intro hreq
    have hne : req.isEmpty = false := by
      cases req with
      | nil => exact absurd rfl hreq
      | cons a l => rfl
    simp only [determinePassStatus, hne, Bool.false_eq_true, if_false, List.all_eq_true]
    constructor
    · intro h name hname m hm
      have := h name hname
      rw [hm] at this
      exact this
    · intro h name hname
      cases hfind : metrics.find? (fun x => x.name == name) with
      | none => simp
      | some m =>
        simp only []
        exact h name hname m hfind
  · intro hreq h
    have hne : req.isEmpty = false := by
      cases req with
      | nil => exact absurd rfl hreq
      | cons a l => rfl
    simp only [determinePassStatus, hne, Bool.false_eq_true, if_false, List.all_eq_true]
    intro name hname
    rw [h name hname]

/-- Witness for C5 at concrete inputs. -/
theorem claim_C5_determinePassStatus_witness :
    determinePassStatus [⟨"prMergeRate", 1, 0, true, 3⟩, ⟨"accountAge", 5, 9, false, 1⟩] [] = false
    ∧ determinePassStatus [⟨"prMergeRate", 1, 0, true, 3⟩, ⟨"accountAge", 5, 9, false, 1⟩]
        ["prMergeRate"] = true
    ∧ determinePassStatus [⟨"prMergeRate", 1, 0, true, 3⟩] ["unknownMetric"] = true := by
  have h1 := (claim_C5_determinePassStatus
      [⟨"prMergeRate", 1, 0, true, 3⟩, ⟨"accountAge", 5, 9, false, 1⟩] ["prMergeRate"]).2.1
      (by decide)
  have h2 := (claim_C5_determinePassStatus [⟨"prMergeRate", 1, 0, true, 3⟩] ["unknownMetric"]).2.2
      (by decide)
  refine ⟨by decide, h1.mpr ?_, h2 ?_⟩
  · intro name hname m hm
    simp at hname
    subst hname
    simp_all
    rw [show m = ⟨"prMergeRate", 1, 0, true, 3⟩ from by
      have := hm
      simp [List.find?] at this
      exact this.symm]
  · intro name hname
    simp at hname
    subst hname
    decide

/-- Concrete detector input of the scenario with a 10-day-old account,
30 total PRs and 12 distinct contributed repositories. -/
def spamInput : SuspiciousPatternInput where
  prHistory := { totalPRs := 30, mergedPRs := 30, closedWithoutMerge := 0, openPRs := 0,
                 mergeRate := 1, averagePRSize := 20, veryShortPRs := 0, mergedPRDates := [] }
  repoQuality := { contributedRepos := (List.range 12).map
                     (fun i => { owner := "o" ++ toString i, repo := "r", stars := 0,
                                 mergedPRCount := 1 }),
                   qualityRepoCount := 0, averageRepoStars := 0, highestStarRepo := 0 }
  account := { createdAt := 0, ageInDays := 10, monthsWithActivity := 1,
               totalMonthsInWindow := 12, consistencyScore := 1 / 12 }
  mergerDiversity := { totalMergedPRs := 30, uniqueMergers := 1, selfMergeCount := 0,
                       othersMergeCount := 30, selfMergesOnOwnRepos := 0,
                       selfMergesOnExternalRepos := 0, externalReposWithMergePrivilege := [],
                       onlySelfMergesOnOwnRepos := false, selfMergeRate := 0,
                       mergerLogins := ["m"] }

/-- Membership in a conditional singleton list. -/
theorem mem_ite_singleton {α : Type} {c : Prop} [Decidable c] {x p : α} :
    p ∈ (if c then [x] else []) ↔ c ∧ p = x := by
  split_ifs with h <;> simp [h]

/-- C7: the detector emits a SPAM_PATTERN entry exactly when the account is
strictly younger than 30 days, has strictly more than 25 PRs and strictly
more than 10 distinct contributed repositories; every SPAM_PATTERN entry
has severity CRITICAL. At the boundary values the comparisons fail, so the
pattern is absent. -/
theorem claim_C7_spamPattern_iff (input : SuspiciousPatternInput) (username : String) :
    ((extractSuspiciousPatterns input username).detectedPatterns.any
        (fun p => p.type == .SPAM_PATTERN) = true ↔
      (input.account.ageInDays < 30 ∧ input.prHistory.totalPRs > 25
        ∧ input.repoQuality.contributedRepos.length > 10))
    ∧ (∀ p ∈ (extractSuspiciousPatterns input username).detectedPatterns,
        p.type = .SPAM_PATTERN → p.severity = .CRITICAL) := by
  constructor
  · constructor
    · intro h
      rw [List.any_eq_true] at h
      obtain ⟨p, hp, htype⟩ := h
      simp only [extractSuspiciousPatterns, List.mem_append, mem_ite_singleton,
        SPAM_DETECTION_THRESHOLDS.NEW_ACCOUNT_DAYS,
        SPAM_DETECTION_THRESHOLDS.NEW_ACCOUNT_HIGH_PR_COUNT,
        SPAM_DETECTION_THRESHOLDS.NEW_ACCOUNT_HIGH_REPO_COUNT] at hp
      rcases hp with ((⟨hc, rfl⟩ | ⟨hc, rfl⟩) | ⟨hc, rfl⟩) | ⟨hc, rfl⟩
      · exact hc
      · exact absurd htype (by decide)
      · exact absurd htype (by decide)
      · exact absurd htype (by decide)
    · intro hc
      rw [List.any_eq_true]
      refine ⟨⟨.SPAM_PATTERN, .CRITICAL⟩, ?_, rfl⟩
      simp only [extractSuspiciousPatterns, List.mem_append, mem_ite_singleton,
        SPAM_DETECTION_THRESHOLDS.NEW_ACCOUNT_DAYS,
        SPAM_DETECTION_THRESHOLDS.NEW_ACCOUNT_HIGH_PR_COUNT,
        SPAM_DETECTION_THRESHOLDS.NEW_ACCOUNT_HIGH_REPO_COUNT]
      exact Or.inl (Or.inl (Or.inl ⟨hc, by trivial⟩))
  · intro p hp htype
    simp only [extractSuspiciousPatterns, List.mem_append, mem_ite_singleton] at hp
    rcases hp with ((⟨hc, rfl⟩ | ⟨hc, rfl⟩) | ⟨hc, rfl⟩) | ⟨hc, rfl⟩
    · rfl
    · exact absurd htype (by decide)
    · exact absurd htype (by decide)
    · exact absurd htype (by decide)

/-- Witness for C7: the scenario input fires the SPAM_PATTERN rule. -/
theorem claim_C7_spamPattern_iff_witness :
    (extractSuspiciousPatterns spamInput "spammer").detectedPatterns.any
      (fun p => p.type == .SPAM_PATTERN) = true :=
  (claim_C7_spamPattern_iff spamInput "spammer").1.mpr (by decide)

/-- User record with no activity, used as a concrete evaluation point. -/
def emptyUser : User :=
  { login := "u", createdAt := 0, bio := none, company := none, location := none,
    websiteUrl := none, followersTotalCount := 0, repositoriesTotalCount := 0,
    pullRequests := ⟨0, [], ⟨false, none⟩⟩, contributionsTotalContributions := 0,
    pullRequestReviewContributionsCount := 0, issueComments := ⟨0, [], ⟨false, none⟩⟩ }

/-- Snapshot with no activity at all. -/
def emptySnapshot : GraphQLContributorData := { user := emptyUser, issueSearch := ⟨0, []⟩ }

/-- C8: the positive reaction ratio always lies between 0 and 1, and a
snapshot with no reactions anywhere yields exactly one half. -/
theorem claim_C8_positiveRatio (data : GraphQLContributorData) :
    (0 ≤ (extractReactionData data).positiveRatio
      ∧ (extractReactionData data).positiveRatio ≤ 1)
    ∧ (snapshotHasNoReactions data = true →
        (extractReactionData data).positiveRatio = 1 / 2) := by
  have hdef : (extractReactionData data).positiveRatio =
      (if 0 < countPositive (snapshotReactionContents data)
            + countNegative (snapshotReactionContents data)
            + countNeutral (snapshotReactionContents data) then
        ((countPositive (snapshotReactionContents data) : ℚ) /
          ((countPositive (snapshotReactionContents data)
            + countNegative (snapshotReactionContents data)
            + countNeutral (snapshotReactionContents data) : Nat) : ℚ))
      else 1 / 2) := rfl
  constructor
  · rw [hdef]
    split_ifs with h
    · constructor
      · positivity
      · rw [div_le_one (by exact_mod_cast h)]
        exact_mod_cast (by omega :
          countPositive (snapshotReactionContents data) ≤
            countPositive (snapshotReactionContents data)
              + countNegative (snapshotReactionContents data)
              + countNeutral (snapshotReactionContents data))
    · norm_num
  · intro h
    have hempty : snapshotReactionContents data = [] := by
      have h1 : data.user.issueComments.nodes.all (fun c => c.reactions.isEmpty) = true := by
        have := h
        unfold snapshotHasNoReactions at this
        exact (Bool.and_eq_true _ _).mp this |>.1
      have h2 : data.issueSearch.nodes.all (fun i => (i.reactions.getD []).isEmpty) = true := by
        have := h
        unfold snapshotHasNoReactions at this
        exact (Bool.and_eq_true _ _).mp this |>.2
      rw [List.all_eq_true] at h1 h2
      unfold snapshotReactionContents
      rw [List.append_eq_nil]
      constructor
      · rw [List.flatten_eq_nil_iff]
        intro l hl
        rw [List.mem_map] at hl
        obtain ⟨c, hc, rfl⟩ := hl
        exact List.isEmpty_iff.mp (h1 c hc)
      · rw [List.flatten_eq_nil_iff]
        intro l hl
        rw [List.mem_map] at hl
        obtain ⟨i, hi, rfl⟩ := hl
        have hmem : i ∈ data.issueSearch.nodes := by
          have := hi
          unfold filteredReactionIssues at this
          exact (List.mem_filter.mp this).1
        exact List.isEmpty_iff.mp (h2 i hmem)
    rw [hdef, hempty]
    simp [countPositive, countNegative, countNeutral]

/-- Witness for C8: the empty snapshot yields a ratio of one half. -/
theorem claim_C8_positiveRatio_witness :
    (extractReactionData emptySnapshot).positiveRatio = 1 / 2 :=
  (claim_C8_positiveRatio emptySnapshot).2 (by decide)

/-- A pull request merged by its own author on an author-owned repository,
with merger casing differing from the username to exercise the
case-insensitive comparison. -/
def selfMergePR : PullRequestNode :=
  { state := .MERGED, merged := true, mergedAt := some 5, createdAt := 1, closedAt := some 5,
    additions := 3, deletions := 1, mergedBy := some "Selfy",
    repository := some ⟨"selfy", "own", 0⟩ }

/-- User record of the self-merge scenario. -/
def selfOnlyUser : User := { emptyUser with
  login := "selfy"
  pullRequests := ⟨2, [selfMergePR, selfMergePR], ⟨false, none⟩⟩ }

/-- Snapshot whose merged PRs are all self-merges on own repositories. -/
def selfOnlySnapshot : GraphQLContributorData :=
  { user := selfOnlyUser, issueSearch := ⟨0, []⟩ }

/-- C6: with no merged PRs, and with no resolved PRs in the target
repository, the merger-diversity and repo-history-merge-rate checks pass
exactly when the configured threshold is zero. -/
theorem claim_C6_emptyData_neutral (t : ℚ) (d : MergerDiversityData) (rh : RepoHistoryData)
    (ht : 0 ≤ t) (hd : d.totalMergedPRs = 0)
    (hrh : rh.mergedPRsInRepo + rh.closedWithoutMergeInRepo = 0) :
    ((checkMergerDiversity d t).passed = true ↔ t = 0)
    ∧ ((checkRepoHistoryMergeRate rh t).passed = true ↔ t = 0) := by
  constructor
  · unfold checkMergerDiversity
    simp [hd, decide_eq_true_iff]
  · unfold checkRepoHistoryMergeRate
    by_cases h0 : rh.totalPRsInRepo = 0 <;> simp [h0, hrh, decide_eq_true_iff]

/-- Witness for C6: the empty snapshot with threshold zero passes both. -/
theorem claim_C6_emptyData_neutral_witness :
    ((checkMergerDiversity (extractMergerDiversityData emptySnapshot "u" 0) 0).passed = true
      ↔ (0 : ℚ) = 0)
    ∧ ((checkRepoHistoryMergeRate (extractRepoHistoryData emptySnapshot ⟨"org", "repo", 1, "u"⟩ 0)
        0).passed = true ↔ (0 : ℚ) = 0) :=
  claim_C6_emptyData_neutral 0 (extractMergerDiversityData emptySnapshot "u" 0)
    (extractRepoHistoryData emptySnapshot ⟨"org", "repo", 1, "u"⟩ 0)
    (by norm_num) (by decide) (by decide)

/-- C9: the extracted onlySelfMergesOnOwnRepos flag holds exactly when there
is at least one merged PR, every merged PR is a self-merge on an own
repository, and none was merged by others; when the flag holds, any
positive threshold fails the merger-diversity check. -/
theorem claim_C9_onlySelfMerges (data : GraphQLContributorData) (username : String)
    (sinceDate : Int) (t : ℚ) (ht : 0 < t) :
    ((extractMergerDiversityData data username sinceDate).onlySelfMergesOnOwnRepos = true ↔
      (0 < (extractMergerDiversityData data username sinceDate).totalMergedPRs
        ∧ (extractMergerDiversityData data username sinceDate).selfMergesOnOwnRepos
            = (extractMergerDiversityData data username sinceDate).totalMergedPRs
        ∧ (extractMergerDiversityData data username sinceDate).othersMergeCount = 0))
    ∧ ((extractMergerDiversityData data username sinceDate).onlySelfMergesOnOwnRepos = true →
        (checkMergerDiversity (extractMergerDiversityData data username sinceDate) t).passed
          = false) := by
  have hflag : (extractMergerDiversityData data username sinceDate).onlySelfMergesOnOwnRepos =
      decide (0 < (extractMergerDiversityData data username sinceDate).totalMergedPRs
        ∧ (extractMergerDiversityData data username sinceDate).selfMergesOnOwnRepos
            = (extractMergerDiversityData data username sinceDate).totalMergedPRs
        ∧ (extractMergerDiversityData data username sinceDate).othersMergeCount = 0) := rfl
  constructor
  · rw [hflag, decide_eq_true_iff]
  · intro h
    have htotal : (extractMergerDiversityData data username sinceDate).totalMergedPRs ≠ 0 := by
      rw [hflag, decide_eq_true_iff] at h
      omega
    unfold checkMergerDiversity
    simp [htotal, h, ht]

/-- Witness for C9: a snapshot of pure own-repo self-merges fails the check
at threshold one. -/
theorem claim_C9_onlySelfMerges_witness :
    (checkMergerDiversity (extractMergerDiversityData selfOnlySnapshot "selfy" 0) 1).passed
      = false :=
  (claim_C9_onlySelfMerges selfOnlySnapshot "selfy" 0 1 (by norm_num)).2 (by decide)

/-- C3: a function that always throws one fixed transient error, run with
maxRetries one, is called exactly once, performs no backoff sleep, and the
error is rethrown. -/
theorem claim_C3_retryExhaustion {T : Type} (fn : Nat → Except JsError T) (e : JsError)
    (hfn : ∀ n, fn n = .error e) (htr : isTransientError e = true) :
    executeWithRetry fn 1 = ⟨1, [], .error (some e)⟩ := by
  have := htr
  unfold executeWithRetry executeWithRetryLoop
  rw [hfn 0]
  simp

/-- Witness for C3 with a timeout error. -/
theorem claim_C3_retryExhaustion_witness :
    executeWithRetry (fun _ => (.error ⟨"etimedout", none⟩ : Except JsError Unit)) 1
      = ⟨1, [], .error (some ⟨"etimedout", none⟩)⟩ :=
  claim_C3_retryExhaustion _ _ (fun _ => rfl) (by decide)

/-- One step of the loop at a non-retryable error: regardless of whether
this is the final permitted attempt, the error is rethrown with one more
call and no further sleep. -/
theorem executeWithRetryLoop_nonretryable {T : Type} (fn : Nat → Except JsError T)
    (maxRetries attempt calls r : Nat) (lastErr : Option JsError) (sleeps : List Nat)
    (e : JsError) (hfn : fn attempt = .error e)
    (hrl : isRateLimitError e = false) (htr : isTransientError e = false) :
    executeWithRetryLoop fn maxRetries attempt lastErr calls sleeps (r + 1)
      = ⟨calls + 1, sleeps, .error (some e)⟩ := by
  unfold executeWithRetryLoop
  rw [hfn]
  by_cases h : attempt = maxRetries - 1 <;> simp [h, hrl, htr]

/-- C4: an error classified as neither rate-limit nor transient propagates
as soon as fn throws it: at whatever attempt the loop may be, one more call
is made, no further backoff sleep happens, and the error is rethrown; in
particular when fn throws it at the first call, executeWithRetry makes
exactly that one call, sleeps never, and rethrows it, for every maxRetries
of at least one. -/
theorem claim_C4_nonretryable_propagates {T : Type} (fn : Nat → Except JsError T)
    (maxRetries : Nat) (e : JsError) (hmax : 1 ≤ maxRetries)
    (hrl : isRateLimitError e = false) (htr : isTransientError e = false) :
    (∀ attempt calls r lastErr sleeps, fn attempt = .error e →
      executeWithRetryLoop fn maxRetries attempt lastErr calls sleeps (r + 1)
        = ⟨calls + 1, sleeps, .error (some e)⟩)
    ∧ (fn 0 = .error e → executeWithRetry fn maxRetries = ⟨1, [], .error (some e)⟩) := by
  refine ⟨fun attempt calls r lastErr sleeps hfn =>
    executeWithRetryLoop_nonretryable fn maxRetries attempt calls r lastErr sleeps e hfn hrl htr,
    fun hfn => ?_⟩
  obtain ⟨r, hr⟩ : ∃ r, maxRetries = r + 1 := ⟨maxRetries - 1, by omega⟩
  unfold executeWithRetry
  rw [hr]
  exact executeWithRetryLoop_nonretryable fn (r + 1) 0 0 r none [] e hfn hrl htr

/-- Witness for C4 with a user-not-found error and the default bound of
three retries. -/
theorem claim_C4_nonretryable_propagates_witness :
    executeWithRetry (fun _ => (.error ⟨"User not found: ghost", none⟩ : Except JsError Unit)) 3
      = ⟨1, [], .error (some ⟨"User not found: ghost", none⟩)⟩ :=
  (claim_C4_nonretryable_propagates _ 3 _ (by norm_num) (by decide) (by decide)).2 rfl

/-- A server whose single page holds one issue comment created before the
window start. -/
def staleCommentServer : Server := fun _ _ =>
  { user := { emptyUser with issueComments := ⟨1, [⟨-5, []⟩], ⟨false, none⟩⟩ },
    issueSearch := ⟨0, []⟩ }

/-- Counterexample to C2 as stated: with window start 0, the snapshot
returned by fetchContributorData still contains an issue comment created
at time -5, because only pull requests are filtered after accumulation. -/
theorem claim_C2_counterexample :
    (fetchContributorData staleCommentServer 0).user.issueComments.nodes.all
      (fun c => decide ((0 : Int) ≤ c.createdAt)) = false := by decide

/-- C2 as amended: every pull request in the snapshot returned by
fetchContributorData was created at or after the window start; accumulated
issue comments are returned without timestamp filtering. -/
theorem claim_C2_prWindowFilter (server : Server) (sinceDate : Int) :
    (fetchContributorData server sinceDate).user.pullRequests.nodes.all
      (fun pr => decide (sinceDate ≤ pr.createdAt)) = true := by
  have hdef : (fetchContributorData server sinceDate).user.pullRequests.nodes =
      (fetchPRPages server (maxPages - 1) (server none none).user.pullRequests.pageInfo
        (server none none).user.pullRequests.nodes).filter
        (fun pr => decide (sinceDate ≤ pr.createdAt)) := rfl
  rw [hdef, List.all_eq_true]
  intro pr hpr
  exact (List.mem_filter.mp hpr).2

/-- Filtering a list by a predicate and by its negation partitions its
length. -/
theorem length_filter_add_length_filter_not {α : Type} (p : α → Bool) (l : List α) :
    (l.filter p).length + (l.filter (fun x => !p x)).length = l.length := by
  induction l with
  | nil => rfl
  | cons a l ih => by_cases h : p a <;> simp [List.filter_cons, h] <;> omega

/-- C10: the analysis result is internally consistent: totalMetrics is the
length of the metrics list, passedCount counts the passing entries,
failedMetrics lists the names of the failing entries in order, and the two
counts partition the total. -/
theorem claim_C10_result_consistency (data : GraphQLContributorData)
    (config : ContributorQualityConfig) (sinceDate : Int) (prContext : PRContext) (now : Int) :
    ((evaluateContributor data config sinceDate prContext now).totalMetrics
        = (evaluateContributor data config sinceDate prContext now).metrics.length)
    ∧ ((evaluateContributor data config sinceDate prContext now).passedCount
        = ((evaluateContributor data config sinceDate prContext now).metrics.filter
            (fun m => m.passed)).length)
    ∧ ((evaluateContributor data config sinceDate prContext now).failedMetrics
        = ((evaluateContributor data config sinceDate prContext now).metrics.filter
            (fun m => !m.passed)).map (fun m => m.name))
    ∧ (evaluateContributor data config sinceDate prContext now).passedCount
        + (evaluateContributor data config sinceDate prContext now).failedMetrics.length
        = (evaluateContributor data config sinceDate prContext now).totalMetrics := by
  refine ⟨rfl, rfl, rfl, ?_⟩
  show ((checkAllMetrics (extractAllMetrics data config sinceDate prContext now) config).filter
        (fun m => m.passed)).length
      + (((checkAllMetrics (extractAllMetrics data config sinceDate prContext now) config).filter
        (fun m => !m.passed)).map (fun m => m.name)).length
      = (checkAllMetrics (extractAllMetrics data config sinceDate prContext now) config).length
  rw [List.length_map]
  exact length_filter_add_length_filter_not _ _

/-- The suspicious patterns check fails whenever a critical pattern was
detected. -/
theorem checkSuspiciousPatterns_critical_fails (sp : SuspiciousPatternData)
    (h : hasCriticalSpamPatterns sp = true) :
    (checkSuspiciousPatterns sp).passed = false := by
  unfold hasCriticalSpamPatterns at h
  rw [List.any_eq_true] at h
  obtain ⟨p, hp, hs⟩ := h
  have hne : ¬ sp.detectedPatterns.length = 0 := by
    have hnil : sp.detectedPatterns ≠ [] := List.ne_nil_of_mem hp
    simpa [List.length_eq_zero] using hnil
  have hcrit : 0 < (sp.detectedPatterns.filter (fun q => q.severity == .CRITICAL)).length :=
    List.length_pos.mpr (List.ne_nil_of_mem (List.mem_filter.mpr ⟨hp, hs⟩))
  unfold checkSuspiciousPatterns
  simp [hne, hcrit]

/-- C1 as amended: when spam detection produced pattern data holding at
least one CRITICAL pattern and the required-metrics list is empty, the
overall verdict of evaluateContributor is failure, whatever the numeric
thresholds. With a nonempty required-metrics list that omits the
suspiciousPatterns check this does not hold, as the counterexample
shows. -/
theorem claim_C1_criticalForcesFail (data : GraphQLContributorData)
    (config : ContributorQualityConfig) (sinceDate : Int) (prContext : PRContext) (now : Int)
    (hreq : config.requiredMetrics = [])
    (hcrit : optionHasCriticalSpamPatterns
      (extractAllMetrics data config sinceDate prContext now).suspiciousPatterns = true) :
    (evaluateContributor data config sinceDate prContext now).passed = false := by
  have hpassed : (evaluateContributor data config sinceDate prContext now).passed =
      determinePassStatus
        (checkAllMetrics (extractAllMetrics data config sinceDate prContext now) config)
        config.requiredMetrics := rfl
  rw [hpassed, hreq]
  unfold determinePassStatus
  simp only [List.isEmpty_nil, if_true]
  cases hsp : (extractAllMetrics data config sinceDate prContext now).suspiciousPatterns with
  | none =>
    rw [hsp] at hcrit
    simp [optionHasCriticalSpamPatterns] at hcrit
  | some sp =>
    rw [hsp] at hcrit
    have hfail := checkSuspiciousPatterns_critical_fails sp hcrit
    have hmem : checkSuspiciousPatterns sp ∈
        checkAllMetrics (extractAllMetrics data config sinceDate prContext now) config := by
      unfold checkAllMetrics
      rw [hsp]
      exact List.mem_append_right _ (List.mem_singleton.mpr rfl)
    rw [Bool.eq_false_iff]
    intro hall
    rw [List.all_eq_true] at hall
    have h2 := hall _ hmem
    simp only [hfail] at h2
    exact Bool.false_ne_true h2

/-- Twelve distinct repository owner names for the spam scenario. -/
def ownerNames : List String :=
  ["o0", "o1", "o2", "o3", "o4", "o5", "o6", "o7", "o8", "o9", "o10", "o11"]

/-- One merged PR of the spam scenario, on the repository owned by the
owner at index i modulo 12. -/
def spamPR (i : Nat) : PullRequestNode :=
  { state := .MERGED, merged := true, mergedAt := some 1000000, createdAt := 1000000,
    closedAt := some 1000000, additions := 20, deletions := 0, mergedBy := some "maint",
    repository := some ⟨ownerNames.getD (i % 12) "o", "r", 0⟩ }

/-- The user of the spam scenario: created at time 0 with 30 merged PRs
across 12 repositories. -/
def spamUser : User := { emptyUser with
  login := "spammer"
  pullRequests := ⟨30, (List.range 30).map spamPR, ⟨false, none⟩⟩ }

/-- The snapshot of the spam scenario. -/
def spamSnapshot : GraphQLContributorData := ⟨spamUser, ⟨0, []⟩⟩

/-- All numeric thresholds set to zero. -/
def zeroThresholds : MetricThresholds := ⟨0, 0, 0, 0, 0, 0, 0, 0, 0, 0, 0, 0⟩

/-- Configuration with zero thresholds, spam detection on, and prMergeRate
as the only required metric. -/
def spamConfigRequired : ContributorQualityConfig :=
  { thresholds := zeroThresholds, requiredMetrics := ["prMergeRate"], minimumStars := 100,
    analysisWindowMonths := 12, newAccountThresholdDays := 30, enableSpamDetection := true }

/-- The same configuration with an empty required-metrics list. -/
def spamConfigAll : ContributorQualityConfig :=
  { spamConfigRequired with requiredMetrics := [] }

/-- PR context of the spam scenario. -/
def spamContext : PRContext := ⟨"org", "repo", 1, "spammer"⟩

/-- Evaluation clock of the spam scenario: ten days after account
creation. -/
def spamNow : Int := 864000000

unseal Rat.mul Rat.add Rat.inv Rat.sub in
/-- Counterexample to C1 as stated: the ten-day-old account with 30 PRs
across 12 repositories triggers a CRITICAL pattern, yet with required
metrics set to prMergeRate alone and all thresholds zero the verdict is
passed, so a CRITICAL pattern does not force failure for every
required-metrics list. -/
theorem claim_C1_counterexample :
    optionHasCriticalSpamPatterns
      (extractAllMetrics spamSnapshot spamConfigRequired 0 spamContext spamNow).suspiciousPatterns
        = true
    ∧ (evaluateContributor spamSnapshot spamConfigRequired 0 spamContext spamNow).passed
        = true := by
  constructor
  · decide
  · decide

unseal Rat.mul Rat.add Rat.inv Rat.sub in
/-- Witness for the amended C1: the same scenario with an empty
required-metrics list fails. -/
theorem claim_C1_criticalForcesFail_witness :
    (evaluateContributor spamSnapshot spamConfigAll 0 spamContext spamNow).passed = false :=
  claim_C1_criticalForcesFail spamSnapshot spamConfigAll 0 spamContext spamNow rfl (by decide)

end ContributorReport
